import Mathlib

/-!
Shallow embedding of the worker supervision and request-dispatch core of the
edge-runtime repository, together with theorems checking the specification's
claims against it.  The embedded sources are:
  - src/crates/event_worker/events.rs  (event records and serde tagging)
  - src/base/src/js_worker.rs          (sandbox host, heap callback, controller)
  - src/base/src/server.rs             (request router)
Machine integers of the source (u16, u64, usize) are modelled as Nat: none of
the embedded computations can overflow their Rust types at the values the
theorems use, and the source performs no wrapping arithmetic.
-/

/-! ## Event records (src/crates/event_worker/events.rs) -/

/-- `BootEvent` (events.rs line 7). -/
structure BootEvent where
  boot_time : Nat
deriving DecidableEq, Repr

/-- `BootFailureEvent` (events.rs line 11). -/
structure BootFailureEvent where
  msg : String
deriving DecidableEq, Repr

/-- `MemCheckState` lives in the external crate `base_mem_check`, which is not
under src/.  Modelled from the spec: "`WorkerMemoryUsed` captures
total/heap/external byte counts plus a boolean `mem_check_captured`
snapshot", so the state is a boolean. -/
def MemCheckState : Type := Bool

instance : DecidableEq MemCheckState := fun a b => instDecidableEqBool a b

/-- `WorkerMemoryUsed` (events.rs line 16). -/
structure WorkerMemoryUsed where
  total : Nat
  heap : Nat
  external : Nat
  mem_check_captured : MemCheckState
deriving DecidableEq

/-- `MemoryLimitDetail` (events.rs line 27), annotated in the source with
`serde(tag = "limited_by")` and `serde(rename_all = "snake_case")`. -/
inductive MemoryLimitDetail where
  | MemCheck
  | V8
deriving DecidableEq, Repr

/-- `ShutdownReason` (events.rs line 33); the source derive has no serde
renaming attribute. -/
inductive ShutdownReason where
  | WallClockTime
  | CPUTime
  | Memory (detail : MemoryLimitDetail)
  | EarlyDrop
  | TerminationRequested
deriving DecidableEq, Repr

/-- `ShutdownEvent` (events.rs line 42). -/
structure ShutdownEvent where
  reason : ShutdownReason
  cpu_time_used : Nat
  memory_used : WorkerMemoryUsed
deriving DecidableEq

/-- `UncaughtExceptionEvent` (events.rs line 49). -/
structure UncaughtExceptionEvent where
  exception : String
  cpu_time_used : Nat
deriving DecidableEq, Repr

/-- `EventLoopCompletedEvent` (events.rs line 55). -/
structure EventLoopCompletedEvent where
  cpu_time_used : Nat
deriving DecidableEq, Repr

/-- `LogLevel` (events.rs line 66). -/
inductive LogLevel where
  | Debug
  | Info
  | Warning
  | Error
deriving DecidableEq, Repr

/-- `LogEvent` (events.rs line 60). -/
structure LogEvent where
  msg : String
  level : LogLevel
deriving DecidableEq, Repr

/-- `WorkerEvents` (events.rs line 74); the source derive has no serde
renaming attribute. -/
inductive WorkerEvents where
  | Boot (e : BootEvent)
  | BootFailure (e : BootFailureEvent)
  | UncaughtException (e : UncaughtExceptionEvent)
  | Shutdown (e : ShutdownEvent)
  | EventLoopCompleted (e : EventLoopCompletedEvent)
  | Log (e : LogEvent)
deriving DecidableEq

/-- `WorkerEvents::with_cpu_time_used` (events.rs lines 84-95): mutate the
`cpu_time_used` field of the `UncaughtException` and `Shutdown` payloads;
every other variant falls into the `_ => {}` arm and is returned as-is. -/
def WorkerEvents.with_cpu_time_used : WorkerEvents → Nat → WorkerEvents
  | .UncaughtException e, t => .UncaughtException { e with cpu_time_used := t }
  | .Shutdown e, t => .Shutdown { e with cpu_time_used := t }
  | e, _ => e

/-! ## Serde variant tags

Serde's derive produces, for an enum without `rename_all`, the Rust variant
identifier verbatim as the (external or internal) tag; with
`rename_all = "snake_case"` the identifier is converted to snake_case.  The
tag functions below record the exact strings serde derives from the
attributes present in events.rs. -/

/-- The value of the `limited_by` discriminator field serde emits for
`MemoryLimitDetail` (events.rs lines 23-30: `tag = "limited_by"`,
`rename_all = "snake_case"`). -/
def MemoryLimitDetail.limited_by_tag : MemoryLimitDetail → String
  | .MemCheck => "mem_check"
  | .V8 => "v8"

/-- The external tag serde emits for `WorkerEvents` (events.rs line 73:
plain `derive(Serialize, Deserialize)`, no renaming attribute, so the tag is
the Rust identifier). -/
def WorkerEvents.serde_tag : WorkerEvents → String
  | .Boot _ => "Boot"
  | .BootFailure _ => "BootFailure"
  | .UncaughtException _ => "UncaughtException"
  | .Shutdown _ => "Shutdown"
  | .EventLoopCompleted _ => "EventLoopCompleted"
  | .Log _ => "Log"

/-- The external tag serde emits for `ShutdownReason` (events.rs line 32:
plain derive, no renaming attribute). -/
def ShutdownReason.serde_tag : ShutdownReason → String
  | .WallClockTime => "WallClockTime"
  | .CPUTime => "CPUTime"
  | .Memory _ => "Memory"
  | .EarlyDrop => "EarlyDrop"
  | .TerminationRequested => "TerminationRequested"

/-- A label is snake_case when it contains no uppercase character. -/
def isSnakeCase (s : String) : Bool :=
  s.data.all (fun c => !c.isUpper)

/-! ## Sandbox host (src/base/src/js_worker.rs) -/

/-- `utils::units::mib_to_bytes`, called from js_worker.rs but not under
src/.  Modelled from the spec: limits are configured in MiB ("heap limit
(MiB)") and the heap cap is expressed in bytes, so one MiB is 2^20 bytes. -/
def mib_to_bytes (mib : Nat) : Nat :=
  mib * 1024 * 1024

/-- Outcome of one invocation of the near-heap-limit callback: the value
sent on the private memory-limit channel and the heap cap returned to the
engine. -/
structure NearHeapLimitOutcome where
  sent_on_channel : Nat
  new_cap : Nat
deriving DecidableEq, Repr

/-- The near-heap-limit callback installed in `JsWorker::new` (js_worker.rs
lines 138-147): it sends `mib_to_bytes(memory_limit_mb)` on the private
channel (`let _ = memory_limit_tx.send(..)`) and returns
`mib_to_bytes(memory_limit_mb + memory_limit_mb.div_euclid(4))` as the new
cap.  `div_euclid` on u64 is Nat division.  The current and initial heap
sizes passed by the engine are ignored except for a debug log. -/
def near_heap_limit_callback (memory_limit_mb : Nat) (_cur _init : Nat) :
    NearHeapLimitOutcome :=
  { sent_on_channel := mib_to_bytes memory_limit_mb
  , new_cap := mib_to_bytes (memory_limit_mb + memory_limit_mb / 4) }

/-- Entry-module resolution as the source performs it (js_worker.rs lines
79-84): `main_module_url = base_url.join("index.ts")`, unconditionally.
The listing of files present in the service directory is taken as a
parameter to make explicit that the source never consults it (the TODO at
line 83 concerns other candidate filenames). -/
def resolve_entry_code (_filesPresent : List String) : Option String :=
  some "index.ts"

/-- The entry-resolution policy as the spec words it: try `index.ts`,
`index.tsx`, `index.js`, `index.mjs` in that order, first existing file
wins, and resolution fails (boot failure) when none exists.  Written from
the spec for comparison with `resolve_entry_code`. -/
def resolve_entry_spec (filesPresent : List String) : Option String :=
  if filesPresent.contains "index.ts" then some "index.ts"
  else if filesPresent.contains "index.tsx" then some "index.tsx"
  else if filesPresent.contains "index.js" then some "index.js"
  else if filesPresent.contains "index.mjs" then some "index.mjs"
  else none

/-- Log levels of the host-side `log` crate macros used by the embedded
functions (`debug!`, `info!`, `error!`). -/
inductive HostLogLevel where
  | Debug
  | Info
  | Error
deriving DecidableEq, Repr

/-- One host-side log line: its level and message. -/
structure HostLog where
  level : HostLogLevel
  msg : String
deriving DecidableEq, Repr

/-- The future built inside `JsWorker::run` (js_worker.rs lines 194-202):
`load_main_module` is awaited first and its error short-circuits via `?`;
then `mod_evaluate` produces a pending result, `run_event_loop` is awaited
and its error short-circuits; only then is the evaluation result awaited.
The three engine calls are abstracted as their results: `loadRes` yields a
module id, `evalRes` maps a module id to the evaluation outcome, `loopRes`
is the event-loop outcome. -/
def runFuture (loadRes : Except String Nat) (evalRes : Nat → Except String Unit)
    (loopRes : Except String Unit) : Except String Unit :=
  match loadRes with
  | .error e => .error e
  | .ok modId =>
    match loopRes with
    | .error e => .error e
    | .ok _ => evalRes modId

/-- Result of `JsWorker::run`: the host log lines it emitted and how many
times it sent on the shutdown channel. -/
structure RunOutcome where
  logs : List HostLog
  shutdown_sends : Nat
deriving DecidableEq, Repr

/-- `JsWorker::run` (js_worker.rs lines 186-214): block on the future; if
the result is an error, log it with `error!("worker thread panicked ..")`;
then send on `shutdown_tx` exactly once, unconditionally. -/
def JsWorker.run (loadRes : Except String Nat) (evalRes : Nat → Except String Unit)
    (loopRes : Except String Unit) : RunOutcome :=
  let res := runFuture loadRes evalRes loopRes
  { logs :=
      match res with
      | .error e => [⟨HostLogLevel.Error, "worker thread panicked " ++ e⟩]
      | .ok _ => []
  , shutdown_sends := 1 }

/-- Which of the two `tokio::select!` arms of the controller fires first
(js_worker.rs lines 230-237): the wall-clock sleep of `worker_timeout_ms`
milliseconds, or a value received on the memory-limit channel. -/
inductive ControllerTrigger where
  | wallClock
  | memoryBreach (used : Nat)
deriving DecidableEq, Repr

/-- Result of the controller thread body: its log lines and the number of
calls made to the isolate's thread-safe termination handle. -/
structure ControllerOutcome where
  logs : List HostLog
  terminate_calls : Nat
deriving DecidableEq, Repr

/-- Body of the thread spawned by `JsWorker::start_controller_thread`
(js_worker.rs lines 216-248).  The thread captures only the isolate's
`thread_safe_handle()`, never the runtime: accordingly this embedding takes
the trigger that won the select and the boolean returned by
`terminate_execution()`.  The wall-clock arm logs at debug, the memory arm
at error; then `terminate_execution` is invoked once, and both its success
("terminated execution") and its failure ("worker is already destroyed")
are logged at debug. -/
def start_controller_body (worker_timeout_ms : Nat) (trigger : ControllerTrigger)
    (terminate_ok : Bool) : ControllerOutcome :=
  let selectLog : HostLog :=
    match trigger with
    | .wallClock =>
        ⟨HostLogLevel.Debug,
          "max duration reached for the worker. terminating the worker. (duration "
            ++ toString worker_timeout_ms ++ ")"⟩
    | .memoryBreach used =>
        ⟨HostLogLevel.Error,
          "memory limit reached for the worker. terminating the worker. (used: "
            ++ toString used ++ ")"⟩
  let termLog : HostLog :=
    if terminate_ok then ⟨HostLogLevel.Debug, "terminated execution"⟩
    else ⟨HostLogLevel.Debug, "worker is already destroyed"⟩
  { logs := [selectLog, termLog], terminate_calls := 1 }

/-- State of a tokio unbounded mpsc channel, as far as `send` observes it:
whether the receiver is still alive, and the queue of pending items.
Streams are identified by Nat ids. -/
structure UnboundedChannel where
  receiver_alive : Bool
  queue : List Nat
deriving DecidableEq, Repr

/-- `UnboundedSender::send`: never blocks; enqueues when the receiver is
alive and returns Ok, otherwise leaves the channel unchanged and returns
Err. -/
def unboundedSend (ch : UnboundedChannel) (item : Nat) : UnboundedChannel × Bool :=
  if ch.receiver_alive then ({ ch with queue := ch.queue ++ [item] }, true)
  else (ch, false)

/-- `JsWorker::accept` (js_worker.rs lines 250-252): send the stream on
`unix_stream_tx` and ignore the `Result` (`self.unix_stream_tx.send(stream);`
discards it), returning unit. -/
def JsWorker.accept (ch : UnboundedChannel) (stream : Nat) : Unit × UnboundedChannel :=
  let sent := unboundedSend ch stream
  ((), sent.1)

/-! ## Request router (src/base/src/server.rs) -/

/-- The `Server` record (server.rs lines 19-28). -/
structure Server where
  ip : String
  port : Nat
  services_dir : String
  mem_limit : Nat
  service_timeout : Nat
  no_module_cache : Bool
  import_map_path : Option String
  env_vars : List (String × String)
deriving DecidableEq, Repr

/-- The arguments `handle_conn` passes to `js_worker::JsWorker::new`
(server.rs lines 110-117). -/
structure WorkerConfig where
  service_path : String
  memory_limit_mb : Nat
  worker_timeout_ms : Nat
  no_module_cache : Bool
  import_map_path : Option String
  env_vars : List (String × String)
deriving DecidableEq, Repr

/-- `http::HeaderValue::to_str` of the http crate: succeeds exactly when
every byte of the value is visible ASCII (0x20-0x7E) or horizontal tab. -/
def headerValueToStr (bytes : List Nat) : Option String :=
  if bytes.all (fun b => (decide (32 ≤ b) && decide (b < 127)) || decide (b = 9)) then
    some (String.mk (bytes.map Char.ofNat))
  else none

/-- Split a character list on `/`, keeping empty segments (the url crate
splits the serialized path this way after dropping the leading slash). -/
def splitOnSlash : List Char → List Char → List String
  | [], acc => [String.mk acc.reverse]
  | c :: rest, acc =>
    if c = '/' then String.mk acc.reverse :: splitOnSlash rest []
    else splitOnSlash rest (c :: acc)

/-- WHATWG path normalization performed by `Url::parse` (the url crate):
single-dot segments are dropped, a double-dot segment pops the previous
segment, and a trailing dot segment leaves a trailing empty segment. -/
def normSegsAux (stack : List String) : List String → List String
  | [] => stack
  | [seg] =>
    if seg = "." then stack ++ [""]
    else if seg = ".." then stack.dropLast ++ [""]
    else stack ++ [seg]
  | seg :: rest =>
    if seg = "." then normSegsAux stack rest
    else if seg = ".." then normSegsAux stack.dropLast rest
    else normSegsAux (stack ++ [seg]) rest

/-- `Url::path_segments()` of the URL built by `handle_conn` from
`"http://" ++ host ++ path`: for an http URL this is always `Some` and
yields the normalized path split on `/` after the leading slash. -/
def pathSegments (path : String) : List String :=
  normSegsAux [] (splitOnSlash (path.data.drop 1) [])

/-- What the routing part of `Server::handle_conn`'s service closure
(server.rs lines 55-135) does with one request, as observable effects: the
host log lines, any HTTP error response produced by the routing itself
(the source constructs none - the 400/404 sends are commented out), the
`JsWorker::new` configuration handed to the spawned worker thread, and a
panic message when the closure panics. -/
structure RouteResult where
  logs : List HostLog
  response_status : Option Nat
  spawned : Option WorkerConfig
  panicked : Option String
deriving DecidableEq, Repr

/-- Routing steps after the host string is known (server.rs lines 70-135):
take the first path segment as the service name; an empty name is logged
with `error!` and execution falls through; the existence check on
`Path::new("./examples").join(service_name)` likewise only logs on failure;
then a worker thread is spawned with the hardcoded configuration (the lines
using the `Server` fields are commented out in the source):
`./examples`-based path, `150 * 1024` MiB, `60 * 1000` ms, no module-cache
disable, no import map, empty environment.  `fsExisting` lists the paths
that exist on disk. -/
def route_after_host (fsExisting : List String) (path : String) : RouteResult :=
  let segs := pathSegments path
  let service_name := segs.headD ""
  let emptyNameLogs : List HostLog :=
    if service_name = "" then [⟨HostLogLevel.Error, "service name cannot be empty"⟩]
    else []
  let service_path := "./examples/" ++ service_name
  let missingLogs : List HostLog :=
    if fsExisting.contains service_path then []
    else [⟨HostLogLevel.Error, "service does not exist"⟩]
  let servingLog : HostLog := ⟨HostLogLevel.Info, "serving function " ++ service_name⟩
  { logs := emptyNameLogs ++ missingLogs ++ [servingLog]
  , response_status := none
  , spawned := some
      { service_path := service_path
      , memory_limit_mb := 150 * 1024
      , worker_timeout_ms := 60 * 1000
      , no_module_cache := false
      , import_map_path := none
      , env_vars := [] }
  , panicked := none }

/-- The routing part of `Server::handle_conn`'s service closure (server.rs
lines 55-135).  The `Server` record is a parameter only to express the
claim that the configuration should flow into the worker; the source's
closure captures none of it.  The host header is read with
`.map(|v| v.to_str().unwrap())`: a value that is not visible ASCII makes
`to_str` return Err and the `unwrap` panic; an absent header defaults to
"example.com". -/
def handle_conn_route (_server : Server) (fsExisting : List String)
    (host_header : Option (List Nat)) (path : String) : RouteResult :=
  match host_header with
  | some bytes =>
    match headerValueToStr bytes with
    | none =>
      { logs := [], response_status := none, spawned := none
      , panicked := some "called Result::unwrap() on an Err value: ToStrError" }
    | some _host => route_after_host fsExisting path
  | none => route_after_host fsExisting path

/-- A `Server` configuration used by the concrete-input theorems; its
values deliberately differ from every constant hardcoded in
`handle_conn`. -/
def demoServer : Server :=
  { ip := "127.0.0.1"
  , port := 9000
  , services_dir := "/srv/functions"
  , mem_limit := 100
  , service_timeout := 5
  , no_module_cache := true
  , import_map_path := some "/srv/import_map.json"
  , env_vars := [("API_KEY", "k")] }

/-! ## Theorems -/

/-- Claim C1: the spec says a request with an empty first path segment or an
unknown function name gets an HTTP 4xx and no sandbox.  Evaluating the
embedded router at `GET /` (empty first segment) and at `GET /nope` with no
`./examples/nope` directory shows the source produces no 4xx response
(`response_status = none`, the sends are commented out) and nevertheless
hands a worker configuration to a freshly spawned sandbox thread. -/
theorem route_bad_path_still_spawns :
    ((handle_conn_route demoServer [] none "/").response_status = none
      ∧ (handle_conn_route demoServer [] none "/").spawned.isSome = true)
    ∧ ((handle_conn_route demoServer ["./examples/hello"] none "/nope").response_status = none
      ∧ (handle_conn_route demoServer ["./examples/hello"] none "/nope").spawned.isSome = true) := by
  decide

/-- Claim C2: the spec says the sandbox is built from the `Server` record's
configured parameters.  Evaluating the embedded router on a `Server` whose
every relevant field differs from the hardcoded constants shows the worker
configuration is the hardcoded one (`./examples`-based path, 153600 MiB,
60000 ms, cache enabled, no import map, empty environment), disagreeing
with the configuration on every field. -/
theorem route_ignores_server_config :
    (handle_conn_route demoServer ["./examples/hello"] none "/hello").spawned
      = some { service_path := "./examples/hello"
             , memory_limit_mb := 153600
             , worker_timeout_ms := 60000
             , no_module_cache := false
             , import_map_path := none
             , env_vars := [] }
    ∧ demoServer.services_dir ++ "/hello" ≠ "./examples/hello"
    ∧ demoServer.mem_limit ≠ 153600
    ∧ demoServer.service_timeout * 1000 ≠ 60000
    ∧ demoServer.no_module_cache ≠ false
    ∧ demoServer.import_map_path ≠ none
    ∧ demoServer.env_vars ≠ [] := by
  decide

/-- Claim C3 counterexample: at a configured limit of 5 MiB the callback
returns 6 MiB = 6291456 bytes, while `⌈1.25 × configured_limit⌉` bytes is
`(5 * mib_to_bytes 5 + 3) / 4 = 6553600`; the claim's equality fails. -/
theorem heap_cap_not_exact_ceil_cex :
    (near_heap_limit_callback 5 0 0).new_cap = 6291456
    ∧ (5 * mib_to_bytes 5 + 3) / 4 = 6553600
    ∧ (near_heap_limit_callback 5 0 0).new_cap ≠ (5 * mib_to_bytes 5 + 3) / 4 := by
  decide

/-- Claim C3 as amended: the near-heap-limit callback sends the configured
limit in bytes on the private channel and returns a cap of
`⌊1.25 × L⌋ MiB` in bytes (MiB-granular floor, `L + L.div_euclid(4)`); the
cap is never below the configured limit and never above 1.25 times it. -/
theorem heap_cap_amended (L cur init : Nat) :
    (near_heap_limit_callback L cur init).sent_on_channel = mib_to_bytes L
    ∧ (near_heap_limit_callback L cur init).new_cap = mib_to_bytes (5 * L / 4)
    ∧ mib_to_bytes L ≤ (near_heap_limit_callback L cur init).new_cap
    ∧ 4 * (near_heap_limit_callback L cur init).new_cap ≤ 5 * mib_to_bytes L := by
  refine ⟨rfl, ?_, ?_, ?_⟩ <;> simp only [near_heap_limit_callback, mib_to_bytes] <;> omega

/-- Claim C4 counterexample: for a service directory containing only
`index.js`, the source resolves `index.ts` while the spec's candidate-list
policy resolves `index.js`. -/
theorem resolve_entry_cex :
    resolve_entry_code ["index.js"] = some "index.ts"
    ∧ resolve_entry_spec ["index.js"] = some "index.js"
    ∧ resolve_entry_code ["index.js"] ≠ resolve_entry_spec ["index.js"] := by
  decide

/-- Claim C4 as amended: sandbox creation always resolves the entry module
to `index.ts` under the service directory, with no candidate list and no
existence check at construction; it agrees with the spec's ordered
candidate policy exactly when `index.ts` is among the files present. -/
theorem resolve_entry_amended (files : List String) :
    resolve_entry_code files = some "index.ts"
    ∧ (resolve_entry_spec files = resolve_entry_code files ↔ files.contains "index.ts" = true) := by
  refine ⟨rfl, ?_, ?_⟩
  · intro h
    by_contra hc
    simp only [resolve_entry_spec, resolve_entry_code, hc, if_false] at h
    split_ifs at h <;> simp_all
  · intro h
    simp only [resolve_entry_spec, resolve_entry_code, h, if_true]

/-- Claim C5: `JsWorker::run` sends on the shutdown channel exactly once on
every outcome of loading, evaluating and event-loop driving; when the
future errors the error is logged at error level, and when it succeeds
nothing is logged. -/
theorem run_always_sends_shutdown (loadRes : Except String Nat)
    (evalRes : Nat → Except String Unit) (loopRes : Except String Unit) :
    (JsWorker.run loadRes evalRes loopRes).shutdown_sends = 1
    ∧ (∀ e, runFuture loadRes evalRes loopRes = Except.error e →
        (⟨HostLogLevel.Error, "worker thread panicked " ++ e⟩ : HostLog)
          ∈ (JsWorker.run loadRes evalRes loopRes).logs)
    ∧ (runFuture loadRes evalRes loopRes = Except.ok () →
        (JsWorker.run loadRes evalRes loopRes).logs = []) := by
  refine ⟨rfl, ?_, ?_⟩
  · intro e h
    simp [JsWorker.run, h]
  · intro h
    simp [JsWorker.run, h]

/-- Witness for C5: applying the theorem where module loading fails with
"nf", and where everything succeeds. -/
theorem run_always_sends_shutdown_witness :
    ((⟨HostLogLevel.Error, "worker thread panicked " ++ "nf"⟩ : HostLog)
      ∈ (JsWorker.run (Except.error "nf") (fun _ => Except.ok ()) (Except.ok ())).logs)
    ∧ (JsWorker.run (Except.ok 1) (fun _ => Except.ok ()) (Except.ok ())).shutdown_sends = 1
    ∧ (JsWorker.run (Except.ok 1) (fun _ => Except.ok ()) (Except.ok ())).logs = [] :=
  ⟨(run_always_sends_shutdown (Except.error "nf") (fun _ => Except.ok ()) (Except.ok ())).2.1
      "nf" rfl,
   (run_always_sends_shutdown (Except.ok 1) (fun _ => Except.ok ()) (Except.ok ())).1,
   (run_always_sends_shutdown (Except.ok 1) (fun _ => Except.ok ()) (Except.ok ())).2.2 rfl⟩

/-- Claim C6: for either trigger (wall-clock sleep elapsing first, or a
memory-breach value arriving first) the controller body makes exactly one
call to the termination handle and logs exactly two lines, the last being
the debug-level outcome of the termination call in both the success and the
already-destroyed case. -/
theorem controller_single_termination (tms : Nat) (trig : ControllerTrigger) (ok : Bool) :
    (start_controller_body tms trig ok).terminate_calls = 1
    ∧ (start_controller_body tms trig ok).logs.length = 2
    ∧ (start_controller_body tms trig ok).logs.getLast? =
        some (if ok then ⟨HostLogLevel.Debug, "terminated execution"⟩
              else ⟨HostLogLevel.Debug, "worker is already destroyed"⟩) := by
  cases trig <;> cases ok <;> exact ⟨rfl, rfl, rfl⟩

/-- Claim C7 counterexample: the top-level event tag for the `Boot` variant
is the Rust identifier "Boot", which is not snake_case. -/
theorem serde_tag_cex :
    (WorkerEvents.Boot ⟨0⟩).serde_tag = "Boot" ∧ isSnakeCase "Boot" = false := by
  decide

/-- Claim C7 as amended: only the memory detail's `limited_by` values are
snake_case ("mem_check", "v8"); every top-level `WorkerEvents` tag and
every `ShutdownReason` tag is the PascalCase Rust identifier and is not
snake_case. -/
theorem serde_tags_amended :
    ((MemoryLimitDetail.MemCheck).limited_by_tag = "mem_check"
      ∧ (MemoryLimitDetail.V8).limited_by_tag = "v8")
    ∧ (∀ d : MemoryLimitDetail, isSnakeCase d.limited_by_tag = true)
    ∧ (∀ e : WorkerEvents, isSnakeCase e.serde_tag = false)
    ∧ (∀ r : ShutdownReason, isSnakeCase r.serde_tag = false) := by
  refine ⟨⟨rfl, rfl⟩, ?_, ?_, ?_⟩ <;> intro x <;> cases x <;> rfl

/-- Claim C8: the spec says the request handler never panics and every
host-header/path failure yields an HTTP error response or an event.
Evaluating the embedded handler at a request whose Host header contains the
non-visible-ASCII byte 0x80 shows the closure panics (`to_str().unwrap()`),
producing neither a response nor any log; and at `GET /` the bad-path
failure produces neither a response nor an event, spawning a sandbox
instead. -/
theorem handler_panics_on_bad_host_header :
    ((handle_conn_route demoServer [] (some [104, 111, 128]) "/hello").panicked.isSome = true
      ∧ (handle_conn_route demoServer [] (some [104, 111, 128]) "/hello").response_status = none
      ∧ (handle_conn_route demoServer [] (some [104, 111, 128]) "/hello").logs = [])
    ∧ ((handle_conn_route demoServer [] none "/").panicked = none
      ∧ (handle_conn_route demoServer [] none "/").response_status = none
      ∧ (handle_conn_route demoServer [] none "/").spawned.isSome = true) := by
  decide

/-- Claim C9: `with_cpu_time_used` overwrites exactly the `cpu_time_used`
field of the `UncaughtException` and `Shutdown` payloads, preserving their
other fields, and returns the `Boot`, `BootFailure`, `EventLoopCompleted`
and `Log` variants completely unchanged. -/
theorem with_cpu_time_used_patches_only_two_variants :
    (∀ (u : UncaughtExceptionEvent) (t : Nat),
      (WorkerEvents.UncaughtException u).with_cpu_time_used t
        = WorkerEvents.UncaughtException ⟨u.exception, t⟩)
    ∧ (∀ (s : ShutdownEvent) (t : Nat),
      (WorkerEvents.Shutdown s).with_cpu_time_used t
        = WorkerEvents.Shutdown ⟨s.reason, t, s.memory_used⟩)
    ∧ (∀ (b : BootEvent) (t : Nat),
      (WorkerEvents.Boot b).with_cpu_time_used t = WorkerEvents.Boot b)
    ∧ (∀ (f : BootFailureEvent) (t : Nat),
      (WorkerEvents.BootFailure f).with_cpu_time_used t = WorkerEvents.BootFailure f)
    ∧ (∀ (c : EventLoopCompletedEvent) (t : Nat),
      (WorkerEvents.EventLoopCompleted c).with_cpu_time_used t
        = WorkerEvents.EventLoopCompleted c)
    ∧ (∀ (l : LogEvent) (t : Nat),
      (WorkerEvents.Log l).with_cpu_time_used t = WorkerEvents.Log l) := by
  refine ⟨?_, ?_, ?_, ?_, ?_, ?_⟩ <;> intros <;> rfl

/-- Claim C10: `accept` always returns unit; when the inbound receiver is
alive the stream is appended to the unbounded queue, and when the receiver
has been dropped the channel is left unchanged (the send error is
discarded); the receiver's liveness is never altered. -/
theorem accept_enqueues_or_discards (ch : UnboundedChannel) (s : Nat) :
    (JsWorker.accept ch s).1 = ()
    ∧ (JsWorker.accept ch s).2.queue
        = (if ch.receiver_alive then ch.queue ++ [s] else ch.queue)
    ∧ (JsWorker.accept ch s).2.receiver_alive = ch.receiver_alive := by
  cases h : ch.receiver_alive <;> simp [JsWorker.accept, unboundedSend, h]
